import Mathlib

/-!
Verification of the aerial devkit sample client.

This file gives a shallow embedding, in Lean 4, of the parts of the
repository relevant to its specification: the API client wrapper
(api_wrapper.py), the application orchestration layer (application.py)
and the terminal utilities (utils.py).  Pure computations are embedded
as Lean functions; the detection-stream read loop is embedded as an
executable interpreter over a finite trace of observations; exceptions
are embedded with `Except` and explicit outcome types.

Modelling conventions:
  * Python dictionaries obtained from json.loads are modelled by the
    inductive type `Json`; the Python value None (JSON null) is
    `Json.null`.
  * Python byte strings (Python 2 str) are modelled as `List Nat` of
    byte values where byte-level behaviour matters (URL quoting), and
    as Lean `String` elsewhere.
  * A raised Python exception is modelled by an explicit error value.
-/

/-- Model of a parsed JSON document, as returned by json.loads.
`Json.null` is the Python value None. -/
inductive Json where
  | null : Json
  | bool_ (b : Bool) : Json
  | num (n : Int) : Json
  | str (s : String) : Json
  | arr (elems : List Json) : Json
  | obj (fields : List (String × Json)) : Json

/-- Model of the Python expression d.get(key, None) on a parsed JSON
value: for a dictionary, the value bound to the key (which may itself
be null), or null when the key is absent.  The application only applies
this to dictionary responses, so non-dictionaries also map to null. -/
def Json.getD (j : Json) (k : String) : Json :=
  match j with
  | .obj fields =>
    match fields.lookup k with
    | some v => v
    | none => .null
  | _ => .null

/-- Model of the Python test `x is None` on a parsed JSON value. -/
def Json.isNull : Json → Bool
  | .null => true
  | _ => false

/-! ## URL quoting (urllib.quote, Python 2)

api_wrapper.py line 169 applies `urllib.quote(url)` to the request path
before appending it to the base URL.  Python 2 urllib.quote leaves
alphanumeric bytes and the bytes of `_.-` untouched (the always-safe
set), leaves the bytes of the `safe` parameter untouched (default `/`),
and replaces every other byte b by a percent sign followed by the two
uppercase hex digits of b. -/

/-- The always-safe bytes of urllib.quote: ASCII letters, digits,
and underscore, period, hyphen. -/
def pythonAlwaysSafe (b : Nat) : Bool :=
  (65 ≤ b && b ≤ 90) || (97 ≤ b && b ≤ 122) || (48 ≤ b && b ≤ 57) ||
    b == 95 || b == 46 || b == 45

/-- Uppercase hexadecimal digit of a value below 16, as a byte. -/
def hexDigit (n : Nat) : Nat :=
  if n < 10 then 48 + n else 55 + n

/-- Quoting of one byte by urllib.quote with the given extra safe set:
kept verbatim when safe, otherwise percent-escaped (37 is the percent
sign). -/
def quoteByte (safe : List Nat) (b : Nat) : List Nat :=
  if pythonAlwaysSafe b || safe.contains b then [b]
  else [37, hexDigit (b / 16 % 16), hexDigit (b % 16)]

/-- urllib.quote with its default safe parameter, the slash (byte 47),
as called by ApiWrapper.__http_request. -/
def urllib_quote (s : List Nat) : List Nat :=
  s.flatMap (quoteByte [47])

/-- Bytes of an ASCII string literal (Python 2 str literals are byte
strings; all literals used here are ASCII). -/
def asciiBytes (s : String) : List Nat :=
  s.data.map Char.toNat

/-- Decimal digit bytes of a number, for the port in the URL format
string. -/
def natBytes (n : Nat) : List Nat :=
  (toString n).data.map Char.toNat

/-- The full request URL formed by ApiWrapper.__http_request, line 170:
the literal prefix http, the server, the port, the literal /api, and
then the quoted path. -/
def httpRequestUrl (server : List Nat) (port : Nat) (path : List Nat) : List Nat :=
  asciiBytes "http://" ++ server ++ asciiBytes ":" ++ natBytes port ++
    asciiBytes "/api" ++ urllib_quote path

/-! ## Exceptions and the HTTP request helper -/

/-- AerialException (api_wrapper.py lines 34-42): a type and a message,
each an arbitrary Python value; in practice both are strings, either
taken from a JSON error body or supplied as local literals. -/
structure AerialException where
  type : Json
  message : Json

/-- The observable content of an HTTP response body with respect to
json.loads: absent or empty (json.loads is never attempted in the
success path, and fails on it in the error path), a non-empty body
parsing to the given JSON value, or a non-empty body on which
json.loads raises ValueError. -/
inductive BodyContent where
  | empty : BodyContent
  | jsonVal (j : Json) : BodyContent
  | notJson (raw : String) : BodyContent

/-- The Python exceptions relevant to this code base. -/
inductive PyError where
  /-- An AerialException instance. -/
  | aerial (e : AerialException) : PyError
  /-- A tornado HTTPError raised by HTTPClient.fetch: a non-2xx
  response, or a code-599 failure whose response may be absent.
  The payload is the body of the attached response, when present. -/
  | http (respBody : Option BodyContent) : PyError
  /-- A socket.error escaping from the network layer; payload is its
  strerror text. -/
  | sock (strerror : String) : PyError
  /-- Any other Python exception (AttributeError, ValueError, ...). -/
  | other (description : String) : PyError

/-- The outcome of HTTPClient.fetch as observed by __http_request:
a 2xx response with a body, a raised HTTPError carrying an optional
response body, or a raised socket-level error. -/
inductive FetchResult where
  | success (body : BodyContent) : FetchResult
  | httpError (respBody : Option BodyContent) : FetchResult
  | socketError (strerror : String) : FetchResult

namespace ApiWrapper

/-- The inner try of the HTTPError handler in __http_request, lines
182-184: json.loads(error.response.body) followed by indexing with
the keys error, type and message.  Returns the extracted pair when
every step succeeds and none when any step raises (absent response,
unparseable body, non-dictionary value, missing key): in the code the
finally clause then re-raises the original HTTPError. -/
def tryParseAerialError (respBody : Option BodyContent) : Option (Json × Json) :=
  match respBody with
  | some (.jsonVal (.obj fields)) =>
    match fields.lookup "error" with
    | some (.obj efields) =>
      match efields.lookup "type", efields.lookup "message" with
      | some t, some m => some (t, m)
      | _, _ => none
    | _ => none
  | _ => none

/-- ApiWrapper.__http_request, lines 161-197, after the URL has been
formed and the request issued; parameterised by the observed fetch
outcome.  On HTTPError, an aerial-shaped error body becomes an
AerialException and anything else re-raises the HTTPError; a socket
error is not caught at all; on success an empty body returns None, a
JSON body returns its parse, and a non-JSON body raises the local
malformed_response AerialException. -/
def http_request (fetched : FetchResult) : Except PyError (Option Json) :=
  match fetched with
  | .socketError strerror => .error (.sock strerror)
  | .httpError respBody =>
    match tryParseAerialError respBody with
    | some (t, m) => .error (.aerial ⟨t, m⟩)
    | none => .error (.http respBody)
  | .success body =>
    match body with
    | .empty => .ok none
    | .jsonVal j => .ok (some j)
    | .notJson _ =>
      .error (.aerial ⟨.str "malformed_response",
        .str "An unexpected response has been received from the server."⟩)

end ApiWrapper

/-! ## The orchestration error boundary (application.py) -/

/-- The transformation type.replace applied at utils.py line 109:
replace underscores by spaces and uppercase.  Both Python operations
act character by character on the ASCII error-type strings of the API,
so their composition is this single character map. -/
def upperWithSpaces (t : String) : String :=
  String.mk (t.data.map (fun c => if c = '_' then ' ' else c.toUpper))

/-- utils.print_api_error, lines 104-110: renders an AerialException
as an upper-cased type in brackets followed by the message.  Defined
only when both fields are strings (any other value would make the
Python attribute access type.replace raise); in that case no rendered
line is produced. -/
def print_api_error (e : AerialException) : Option String :=
  match e.type, e.message with
  | .str t, .str m => some ("[" ++ upperWithSpaces t ++ "] " ++ m)
  | _, _ => none

/-- The observable outcome of one decorated command handler: either the
wrapper returned normally, possibly after rendering one error line to
the terminal, or an exception propagated out of the handler. -/
inductive HandlerOutcome where
  | returned (rendered : Option String) : HandlerOutcome
  | propagated (e : PyError) : HandlerOutcome

/-- handle_api_errors, application.py lines 33-44: runs the wrapped
function, catches AerialException and socket.error and pretty-prints
them (a socket.error is first wrapped in a socket_error
AerialException with a period appended to its strerror); every other
exception propagates.  The argument is the outcome of the wrapped
function body. -/
def handle_api_errors (run : Except PyError Unit) : HandlerOutcome :=
  match run with
  | .ok _ => .returned none
  | .error (.aerial e) =>
    match print_api_error e with
    | some rendered => .returned (some rendered)
    | none => .propagated (.other "AttributeError")
  | .error (.sock strerror) =>
    match print_api_error ⟨.str "socket_error", .str (strerror ++ ".")⟩ with
    | some rendered => .returned (some rendered)
    | none => .propagated (.other "AttributeError")
  | .error e => .propagated e

/-- The command-level operations of the application, one per decorated
method of the Application class (application.py lines 62-144). -/
inductive Command where
  | list : Command
  | reset : Command
  | train (profile_name : String) : Command
  | enable (profile_name : String) : Command
  | disable (profile_name : String) : Command
  | detect (mode : String) : Command

/-- Executing one command: every Application command method carries the
handle_api_errors decorator, so running a command is running its body
under the wrapper.  The body argument gives the outcome of the
undecorated method body for each command. -/
def runCommand (c : Command) (body : Command → Except PyError Unit) : HandlerOutcome :=
  handle_api_errors (body c)

/-! ## Datetime formatting (utils.py)

utils.format_datetime parses a naive UTC datetime string with
dateutil, attaches the UTC timezone, converts to the local timezone
and formats with strftime.  The dateutil parser and the timezone
database are library code outside this repository; they are embedded
as an ISO-8601 parser for the datetime strings of the API (the only
shape the server transmits) and an explicit local offset in minutes. -/

/-- A parsed naive datetime, the result of dateutil parsing. -/
structure NaiveDateTime where
  year : Nat
  month : Nat
  day : Nat
  hour : Nat
  minute : Nat
  second : Nat

/-- Splitting a character list at every occurrence of a separator. -/
def splitOnChar (c : Char) (cs : List Char) : List (List Char) :=
  match cs with
  | [] => [[]]
  | x :: rest =>
    let r := splitOnChar c rest
    if x = c then [] :: r
    else
      match r with
      | h :: t => (x :: h) :: t
      | [] => [[x]]

/-- Value of a non-empty all-digit decimal token; none otherwise. -/
def digitsToNat? (cs : List Char) : Option Nat :=
  match cs with
  | [] => none
  | _ =>
    cs.foldl
      (fun acc c =>
        match acc with
        | none => none
        | some n =>
          if 48 ≤ c.toNat && c.toNat ≤ 57 then some (n * 10 + (c.toNat - 48))
          else none)
      (some 0)

/-- Embedding of dateutil.parser.parse on the ISO-8601 datetime
strings the API transmits (for example 2016-05-01T10:00:00Z, with the
UTC suffix optional).  Returns none when the string does not parse. -/
def parseDatetime (s : String) : Option NaiveDateTime :=
  match splitOnChar 'T' s.data with
  | [datePart, timePart0] =>
    let timePart :=
      match timePart0.getLast? with
      | some z => if z = 'Z' then timePart0.dropLast else timePart0
      | none => timePart0
    match splitOnChar '-' datePart, splitOnChar ':' timePart with
    | [ys, mos, ds], [hs, mis, ss] =>
      match digitsToNat? ys, digitsToNat? mos, digitsToNat? ds,
            digitsToNat? hs, digitsToNat? mis, digitsToNat? ss with
      | some y, some mo, some d, some h, some mi, some sec =>
        if 1 ≤ mo && mo ≤ 12 && 1 ≤ d && d ≤ 31 && h < 24 && mi < 60 && sec < 60 then
          some ⟨y, mo, d, h, mi, sec⟩
        else none
      | _, _, _, _, _, _ => none
    | _, _ => none
  | _ => none

/-- Days from the civil epoch 1970-01-01 of a calendar date
(proleptic Gregorian). -/
def daysFromCivil (y m d : Int) : Int :=
  let y := if m ≤ 2 then y - 1 else y
  let era := y.ediv 400
  let yoe := y - era * 400
  let mp := (m + 9).emod 12
  let doy := (153 * mp + 2).ediv 5 + d - 1
  let doe := yoe * 365 + yoe.ediv 4 - yoe.ediv 100 + doy
  era * 146097 + doe - 719468

/-- Calendar date (year, month, day) of a day count from 1970-01-01. -/
def civilFromDays (z0 : Int) : Int × Int × Int :=
  let z := z0 + 719468
  let era := z.ediv 146097
  let doe := z - era * 146097
  let yoe := (doe - doe.ediv 1460 + doe.ediv 36524 - doe.ediv 146096).ediv 365
  let y := yoe + era * 400
  let doy := doe - (365 * yoe + yoe.ediv 4 - yoe.ediv 100)
  let mp := (5 * doy + 2).ediv 153
  let d := doy - (153 * mp + 2).ediv 5 + 1
  let m := if mp < 10 then mp + 3 else mp - 9
  (if m ≤ 2 then y + 1 else y, m, d)

/-- Seconds since the epoch of a naive UTC datetime. -/
def NaiveDateTime.toEpochSeconds (dt : NaiveDateTime) : Int :=
  daysFromCivil dt.year dt.month dt.day * 86400 +
    dt.hour * 3600 + dt.minute * 60 + dt.second

/-- Two-digit zero-padded decimal rendering (strftime numeric field). -/
def pad2 (n : Nat) : String :=
  if n < 10 then "0" ++ toString n else toString n

/-- utils.DATETIME_FORMAT_FULL (utils.py line 29). -/
def DATETIME_FORMAT_FULL : Nat := 0

/-- utils.DATETIME_FORMAT_TIME (utils.py line 30). -/
def DATETIME_FORMAT_TIME : Nat := 1

/-- utils.format_datetime, lines 85-101, with the local timezone made
explicit as an offset from UTC in minutes: parse the naive UTC
datetime string, shift it by the local offset, and render it with the
format string selected by the format constant (the full format is
year-month-day, two spaces, then the time; the time format is a
12-hour clock with seconds and an AM or PM marker).  Returns none when
the format constant is unknown (the dictionary lookup raises KeyError)
or the string does not parse (dateutil raises ValueError). -/
def format_datetime (offsetMinutes : Int) (naive_date : String) (format : Nat) : Option String :=
  match parseDatetime naive_date with
  | none => none
  | some dt =>
    let localSecs := dt.toEpochSeconds + offsetMinutes * 60
    let days := localSecs.ediv 86400
    let sod := (localSecs.emod 86400).toNat
    let h := sod / 3600
    let hour12 := if h % 12 == 0 then 12 else h % 12
    let meridiem := if h < 12 then "AM" else "PM"
    let timeText := pad2 hour12 ++ ":" ++ pad2 (sod / 60 % 60) ++ ":" ++
      pad2 (sod % 60) ++ " " ++ meridiem
    if format == DATETIME_FORMAT_FULL then
      match civilFromDays days with
      | (y, m, d) =>
        some (toString y.toNat ++ "-" ++ pad2 m.toNat ++ "-" ++ pad2 d.toNat ++
          "  " ++ timeText)
    else if format == DATETIME_FORMAT_TIME then
      some timeText
    else none

/-! ## Application.detect (application.py lines 117-144) -/

/-- The observable outcome of Application.detect up to the point the
foreground blocks: an AerialException raised before any stream was
started; or the stream started after printing the given banner line,
with the foreground then blocked on signal.pause; or a non-Aerial
exception escaping (an expiry value that dateutil cannot handle). -/
inductive DetectOutcome where
  | raised (e : AerialException) : DetectOutcome
  | streaming (banner : String) : DetectOutcome
  | crashed : DetectOutcome

/-- The local contract-check error raised by Application.detect at
line 133. -/
def initContractError : AerialException :=
  ⟨.str "unknown_error",
   .str "Unexpected response received from server during initialization."⟩

/-- Application.detect, lines 117-144, parameterised by the parsed
initialize response and the local timezone offset: raise the local
unknown_error AerialException when the profiles entry of the response
is missing or null; otherwise print the banner, with a local-time
expiry included exactly when the mode is room and the expiry entry is
present and non-null; then start the detection stream and block on
signal.pause. -/
def Application.detect (offsetMinutes : Int) (mode : String) (init_result : Json) :
    DetectOutcome :=
  if (init_result.getD "profiles").isNull then
    .raised initContractError
  else if mode == "room" && !(init_result.getD "expiry").isNull then
    match init_result.getD "expiry" with
    | .str s =>
      match format_datetime offsetMinutes s DATETIME_FORMAT_TIME with
      | some expiry_date =>
        .streaming ("Detection is about to begin and expires at " ++ expiry_date ++
          ". Press Ctrl+C to stop.\n")
      | none => .crashed
    | _ => .crashed
  else
    .streaming "Detection is about to begin. Press Ctrl+C to stop.\n"

/-! ## ApiWrapper client state and stop (api_wrapper.py lines 55-59, 152-158) -/

/-- The state of an ApiWrapper instance (api_wrapper.py lines 55-59):
the server address, the port, the HTTPClient (an abstract handle), and
the private stop flag for the detection loop. -/
structure ApiWrapper where
  server : String
  port : Nat
  client : Nat
  stop_detection : Bool

/-- ApiWrapper.stop, lines 152-158: set the stop flag.  The method
body is a single flag assignment; it performs no wait, no join and no
network operation, so it returns before the loop observes the flag. -/
def ApiWrapper.stop (w : ApiWrapper) : ApiWrapper :=
  { w with stop_detection := true }

/-! ## The detection-stream read loop (api_wrapper.py lines 113-145)

The coroutine __connect runs, after a successful websocket_connect,
a polling loop over the stop flag and the current read_message future.
It is embedded as an executable interpreter over a finite trace of
observations: one observation per inner-loop iteration, recording
whether another thread called stop() since the previous iteration and
the state of the current message future at this check.  A future that
resolved with None means the peer closed the connection. -/

/-- The state of the pending read_message future at one check. -/
inductive FutureState where
  | pending : FutureState
  | doneClosed : FutureState
  | doneMsg (frame : BodyContent) : FutureState

/-- One inner-loop iteration as observed by the loop body. -/
structure LoopObs where
  setStop : Bool
  fut : FutureState

/-- The observable outcome of running the read loop over a trace. -/
structure LoopResult where
  /-- The parsed frames passed to the listener callback, in order. -/
  callbacks : List Json
  /-- How many times signal.alarm was invoked (line 130). -/
  alarms : Nat
  /-- The value of the stop flag afterwards. -/
  stopFlag : Bool
  /-- Whether socket.close() was executed (lines 144-145). -/
  socketClosed : Bool
  /-- Whether the loop terminated through one of its own exit paths
  (stop observed, or peer closure); socket.close() runs only then. -/
  exited : Bool
  /-- Whether an exception escaped the coroutine instead (a frame on
  which json.loads raises); no close runs on that path. -/
  crashed : Bool

/-- The read loop of ApiWrapper.detect, lines 121-145, as a function
of the initial stop flag and the observation trace.  Each step is one
pass over the inner-loop checks, in source order: peer closure first
(set the flag, print, signal.alarm, break), then the stop flag, then a
completed message (json.loads, listener callback), otherwise a
half-second sleep and a re-check.  Every break returns to the outer
while, whose test failing ends the loop and closes the socket.  A
trace that runs out before an exit leaves the loop still running. -/
def detectLoop (stop : Bool) (obs : List LoopObs) : LoopResult :=
  if stop then
    { callbacks := [], alarms := 0, stopFlag := stop,
      socketClosed := true, exited := true, crashed := false }
  else
    match obs with
    | [] =>
      { callbacks := [], alarms := 0, stopFlag := false,
        socketClosed := false, exited := false, crashed := false }
    | o :: rest =>
      match o.fut with
      | .doneClosed =>
        { callbacks := [], alarms := 1, stopFlag := true,
          socketClosed := true, exited := true, crashed := false }
      | .pending =>
        if o.setStop then
          { callbacks := [], alarms := 0, stopFlag := true,
            socketClosed := true, exited := true, crashed := false }
        else
          detectLoop false rest
      | .doneMsg frame =>
        if o.setStop then
          { callbacks := [], alarms := 0, stopFlag := true,
            socketClosed := true, exited := true, crashed := false }
        else
          match frame with
          | .jsonVal j =>
            let r := detectLoop false rest
            { r with callbacks := j :: r.callbacks }
          | _ =>
            { callbacks := [], alarms := 0, stopFlag := false,
              socketClosed := false, exited := false, crashed := true }

/-! ## Application state and shutdown (application.py lines 56-59, 147-155) -/

/-- The state of an Application instance: its ApiWrapper, whether the
two-worker executor still accepts submissions, and the detection
thread handle when a stream was started. -/
structure Application where
  api_wrapper : ApiWrapper
  executorAccepting : Bool
  detection_thread : Option Nat

/-- The calls Application.shutdown performs, in order. -/
inductive ShutdownAction where
  | stopStream : ShutdownAction
  | executorShutdown (wait : Bool) : ShutdownAction
  | joinThread (timeoutSeconds : Nat) : ShutdownAction
deriving DecidableEq, BEq

/-- An upper bound, in seconds, on how long one shutdown call may
block: the flag write and the no-wait executor shutdown return at
once, a join blocks at most its timeout, and a waiting executor
shutdown would be unbounded. -/
def ShutdownAction.blockingBound : ShutdownAction → Option Nat
  | .stopStream => some 0
  | .executorShutdown w => if w then none else some 0
  | .joinThread t => some t

/-- Total blocking bound of a call sequence; none when any call is
unbounded. -/
def totalBlockingBound (acts : List ShutdownAction) : Option Nat :=
  acts.foldr
    (fun a acc =>
      match a.blockingBound, acc with
      | some x, some y => some (x + y)
      | _, _ => none)
    (some 0)

/-- Application.shutdown, lines 147-155: set the stop flag through
ApiWrapper.stop, shut the executor down without waiting for in-flight
work, and, when a detection thread exists, join it with a 3-second
timeout.  Returns the new state and the performed calls in order. -/
def Application.shutdown (app : Application) :
    Application × List ShutdownAction :=
  let actions := [ShutdownAction.stopStream, ShutdownAction.executorShutdown false] ++
    (match app.detection_thread with
     | some _ => [ShutdownAction.joinThread 3]
     | none => [])
  ({ app with api_wrapper := app.api_wrapper.stop, executorAccepting := false },
    actions)

/-! ## Claim theorems -/

/-- C1: for every command-level operation (list, reset, train, enable,
disable, detect), an AerialException (with the string-typed fields the
API contract prescribes) or a low-level socket error raised during the
body is caught by the handle_api_errors boundary and rendered to the
terminal; the handler returns normally instead of propagating it. -/
theorem C1_errors_caught_and_rendered (c : Command)
    (body : Command → Except PyError Unit) (t m strerror : String) :
    (body c = .error (.aerial ⟨.str t, .str m⟩) →
      runCommand c body =
        .returned (some ("[" ++ upperWithSpaces t ++ "] " ++ m))) ∧
    (body c = .error (.sock strerror) →
      runCommand c body =
        .returned (some ("[SOCKET ERROR] " ++ (strerror ++ ".")))) := by
  constructor
  · intro h
    show handle_api_errors (body c) = _
    rw [h]
    rfl
  · intro h
    show handle_api_errors (body c) = _
    rw [h]
    rfl

/-- Witness for C1 at a concrete command and concrete errors. -/
theorem C1_errors_caught_and_rendered_witness :
    runCommand Command.list
        (fun _ => Except.error (PyError.aerial
          ⟨Json.str "not_found", Json.str "No such profile."⟩)) =
      HandlerOutcome.returned (some "[NOT FOUND] No such profile.") ∧
    runCommand Command.reset
        (fun _ => Except.error (PyError.sock "Connection refused")) =
      HandlerOutcome.returned (some "[SOCKET ERROR] Connection refused.") :=
  ⟨(C1_errors_caught_and_rendered Command.list
      (fun _ => Except.error (PyError.aerial
        ⟨Json.str "not_found", Json.str "No such profile."⟩))
      "not_found" "No such profile." "x").1 rfl,
   (C1_errors_caught_and_rendered Command.reset
      (fun _ => Except.error (PyError.sock "Connection refused"))
      "t" "m" "Connection refused").2 rfl⟩

/-- C2: on an HTTPError whose response body is JSON of the shape
error-type-message, the client raises an AerialException exposing
exactly that type and that message; on any other transport failure
(a socket error, or an HTTPError whose body does not conform) the
original transport error is raised unchanged. -/
theorem C2_transport_error_mapping (fields efields : List (String × Json))
    (t m : Json) (rb : Option BodyContent) (strerror : String) :
    (fields.lookup "error" = some (Json.obj efields) →
      efields.lookup "type" = some t → efields.lookup "message" = some m →
      ApiWrapper.http_request (.httpError (some (.jsonVal (.obj fields)))) =
        .error (.aerial ⟨t, m⟩)) ∧
    (ApiWrapper.tryParseAerialError rb = none →
      ApiWrapper.http_request (.httpError rb) = .error (.http rb)) ∧
    ApiWrapper.http_request (.socketError strerror) = .error (.sock strerror) := by
  refine ⟨?_, ?_, rfl⟩
  · intro h1 h2 h3
    simp [ApiWrapper.http_request, ApiWrapper.tryParseAerialError, h1, h2, h3]
  · intro h
    simp [ApiWrapper.http_request, h]

/-- Witness for C2 at a concrete conforming error body and at a
concrete non-conforming transport failure. -/
theorem C2_transport_error_mapping_witness :
    ApiWrapper.http_request (.httpError (some (.jsonVal (.obj
        [("error", Json.obj [("type", Json.str "device_busy"),
                             ("message", Json.str "The device is busy.")])])))) =
      .error (.aerial ⟨Json.str "device_busy", Json.str "The device is busy."⟩) ∧
    ApiWrapper.http_request (.httpError none) = .error (.http none) :=
  ⟨(C2_transport_error_mapping
      [("error", Json.obj [("type", Json.str "device_busy"),
                           ("message", Json.str "The device is busy.")])]
      [("type", Json.str "device_busy"), ("message", Json.str "The device is busy.")]
      (Json.str "device_busy") (Json.str "The device is busy.") none "x").1 rfl rfl rfl,
   (C2_transport_error_mapping [] [] Json.null Json.null none "x").2.1 rfl⟩

/-- C3: for a 2xx response, an empty body returns no value and raises
nothing, a non-empty non-JSON body raises the malformed_response
AerialException, and a JSON body returns its parse. -/
theorem C3_success_body_handling (j : Json) (raw : String) :
    ApiWrapper.http_request (.success .empty) = .ok none ∧
    ApiWrapper.http_request (.success (.notJson raw)) =
      .error (.aerial ⟨.str "malformed_response",
        .str "An unexpected response has been received from the server."⟩) ∧
    ApiWrapper.http_request (.success (.jsonVal j)) = .ok (some j) :=
  ⟨rfl, rfl, rfl⟩

/-- C4: Application.detect raises the local unknown_error
AerialException, and starts no stream, when the initialize response
has no usable profiles entry; otherwise it starts the stream after a
startup banner that includes the local-time-converted expiry exactly
when the mode is room and the response supplied an expiry. -/
theorem C4_detect_contract_and_banner (offsetMinutes : Int) (mode : String)
    (fields : List (String × Json)) (s expiry_date : String) :
    (((Json.obj fields).getD "profiles").isNull = true →
      Application.detect offsetMinutes mode (Json.obj fields) =
        .raised initContractError) ∧
    (((Json.obj fields).getD "profiles").isNull = false → mode = "room" →
      (Json.obj fields).getD "expiry" = Json.str s →
      format_datetime offsetMinutes s DATETIME_FORMAT_TIME = some expiry_date →
      Application.detect offsetMinutes mode (Json.obj fields) =
        .streaming ("Detection is about to begin and expires at " ++ expiry_date ++
          ". Press Ctrl+C to stop.\n")) ∧
    (((Json.obj fields).getD "profiles").isNull = false →
      (mode ≠ "room" ∨ ((Json.obj fields).getD "expiry").isNull = true) →
      Application.detect offsetMinutes mode (Json.obj fields) =
        .streaming "Detection is about to begin. Press Ctrl+C to stop.\n") := by
  refine ⟨?_, ?_, ?_⟩
  · intro h
    simp [Application.detect, h]
  · intro h1 h2 h3 h4
    subst h2
    unfold Application.detect
    rw [h1, h3]
    simp [Json.isNull, h4]
  · intro h1 h2
    rcases h2 with h2 | h2
    · simp [Application.detect, h1, h2]
    · simp [Application.detect, h1, h2]

/-- Witness for C4 at the specification scenario: a room-mode
initialize response with profiles and an expiry, one without an
expiry, and one without profiles (local offset 120 minutes). -/
theorem C4_detect_contract_and_banner_witness :
    Application.detect 120 "room"
        (Json.obj [("profiles", Json.arr []),
                   ("expiry", Json.str "2016-05-01T10:00:00Z")]) =
      DetectOutcome.streaming
        "Detection is about to begin and expires at 12:00:00 PM. Press Ctrl+C to stop.\n" ∧
    Application.detect 120 "room" (Json.obj [("profiles", Json.arr [])]) =
      DetectOutcome.streaming "Detection is about to begin. Press Ctrl+C to stop.\n" ∧
    Application.detect 120 "room" (Json.obj []) =
      DetectOutcome.raised initContractError :=
  ⟨(C4_detect_contract_and_banner 120 "room"
      [("profiles", Json.arr []), ("expiry", Json.str "2016-05-01T10:00:00Z")]
      "2016-05-01T10:00:00Z" "12:00:00 PM").2.1 rfl rfl rfl rfl,
   (C4_detect_contract_and_banner 120 "room" [("profiles", Json.arr [])]
      "" "").2.2 rfl (Or.inr rfl),
   (C4_detect_contract_and_banner 120 "room" [] "" "").1 rfl⟩

/-- C5: once a stop has been requested, the detection read loop exits
without invoking the result callback again, even when a frame is
already available at the next check. -/
theorem C5_stop_requested_no_more_callbacks (obs rest : List LoopObs)
    (frame : BodyContent) :
    (detectLoop true obs).callbacks = [] ∧
    (detectLoop true obs).exited = true ∧
    detectLoop false ({ setStop := true, fut := .doneMsg frame } :: rest) =
      { callbacks := [], alarms := 0, stopFlag := true,
        socketClosed := true, exited := true, crashed := false } :=
  ⟨by cases obs <;> rfl, by cases obs <;> rfl, rfl⟩

/-- Alarm count of any run of the read loop: the loop exits at the
first peer-closure observation, so signal.alarm runs at most once. -/
theorem detectLoop_alarms_le_one (stop : Bool) (obs : List LoopObs) :
    (detectLoop stop obs).alarms ≤ 1 := by
  induction obs generalizing stop with
  | nil => cases stop <;> simp [detectLoop]
  | cons o rest ih =>
    obtain ⟨s, f⟩ := o
    cases stop
    · cases f with
      | pending => cases s <;> simp [detectLoop, ih]
      | doneClosed => simp [detectLoop]
      | doneMsg frame =>
        cases s
        · cases frame <;> simp [detectLoop, ih]
        · simp [detectLoop]
    · simp [detectLoop]

/-- The socket is closed exactly on the runs in which the loop exited
through one of its own exit paths. -/
theorem detectLoop_socketClosed_eq_exited (stop : Bool) (obs : List LoopObs) :
    (detectLoop stop obs).socketClosed = (detectLoop stop obs).exited := by
  induction obs generalizing stop with
  | nil => cases stop <;> simp [detectLoop]
  | cons o rest ih =>
    obtain ⟨s, f⟩ := o
    cases stop
    · cases f with
      | pending => cases s <;> simp [detectLoop, ih]
      | doneClosed => simp [detectLoop]
      | doneMsg frame =>
        cases s
        · cases frame <;> simp [detectLoop, ih]
        · simp [detectLoop]
    · simp [detectLoop]

/-- C6: when the peer closes the connection (the next-frame future
resolves to no data), the loop sets the stop flag, fires the alarm
mechanism exactly once, exits, and closes the socket; and on every
run, the socket is closed exactly when the loop exited, whichever
exit condition triggered. -/
theorem C6_peer_closure_and_socket_close (b : Bool) (rest obs : List LoopObs)
    (stop : Bool) :
    detectLoop false ({ setStop := b, fut := .doneClosed } :: rest) =
      { callbacks := [], alarms := 1, stopFlag := true,
        socketClosed := true, exited := true, crashed := false } ∧
    (detectLoop stop obs).alarms ≤ 1 ∧
    (detectLoop stop obs).socketClosed = (detectLoop stop obs).exited :=
  ⟨rfl, detectLoop_alarms_le_one stop obs, detectLoop_socketClosed_eq_exited stop obs⟩

/-- C7: ApiWrapper.stop is idempotent, sets the stop flag, and leaves
the server, port and HTTP client of the wrapper unchanged; it is a
plain flag write, so it returns without waiting for the loop. -/
theorem C7_stop_idempotent_and_frame (w : ApiWrapper) :
    (w.stop).stop = w.stop ∧
    (w.stop).stop_detection = true ∧
    (w.stop).server = w.server ∧
    (w.stop).port = w.port ∧
    (w.stop).client = w.client :=
  ⟨rfl, rfl, rfl, rfl, rfl⟩

/-- C8: Application.shutdown requests the stream stop, shuts the
worker pool down without waiting on in-flight work, joins the
detection thread with a 3-second timeout exactly when one exists, and
its total blocking bound is at most 3 seconds regardless of the
stream state. -/
theorem C8_shutdown_bounded (app : Application) :
    (app.shutdown).1.api_wrapper.stop_detection = true ∧
    (app.shutdown).1.executorAccepting = false ∧
    ShutdownAction.stopStream ∈ (app.shutdown).2 ∧
    ShutdownAction.executorShutdown false ∈ (app.shutdown).2 ∧
    (app.shutdown).2.contains (ShutdownAction.joinThread 3) =
      app.detection_thread.isSome ∧
    (∃ n, totalBlockingBound (app.shutdown).2 = some n ∧ n ≤ 3) := by
  obtain ⟨w, ex, dt⟩ := app
  cases dt with
  | none =>
    exact ⟨rfl, rfl, by simp [Application.shutdown],
      by simp [Application.shutdown], rfl, 0, rfl, by omega⟩
  | some th =>
    exact ⟨rfl, rfl, by simp [Application.shutdown],
      by simp [Application.shutdown], rfl, 3, rfl, by omega⟩

/-- C9: counterexample to the claim that a profile name containing a
slash is transmitted percent-encoded: the path built for the profile
named a/b passes through urllib.quote unchanged, with its slashes
raw (byte 47) and no percent byte (37) in the output. -/
theorem C9_counterexample_slash_not_encoded :
    urllib_quote (asciiBytes "/profiles/a/b") = asciiBytes "/profiles/a/b" ∧
    (urllib_quote (asciiBytes "/profiles/a/b")).contains 47 = true ∧
    (urllib_quote (asciiBytes "/profiles/a/b")).contains 37 = false := by
  decide

set_option maxRecDepth 8192 in
/-- C9 (amended): the request path is percent-encoded by urllib.quote
with its default safe set before being appended to the base URL, so
spaces and non-ASCII bytes in a profile name are transmitted encoded;
slashes, however, belong to the default safe set and pass through
raw. -/
theorem C9_quoting_amended (b : Nat) (hb : b < 256) :
    (pythonAlwaysSafe b = false → b ≠ 47 →
      quoteByte [47] b = [37, hexDigit (b / 16), hexDigit (b % 16)] ∧
      quoteByte [47] b ≠ [b]) ∧
    (128 ≤ b → quoteByte [47] b ≠ [b]) ∧
    quoteByte [47] 32 = asciiBytes "%20" ∧
    quoteByte [47] 47 = [47] ∧
    ∀ (server path : List Nat) (port : Nat),
      httpRequestUrl server port path =
        asciiBytes "http://" ++ server ++ asciiBytes ":" ++ natBytes port ++
          asciiBytes "/api" ++ urllib_quote path := by
  have key : ∀ x, x < 256 →
      (pythonAlwaysSafe x = false → x ≠ 47 →
        quoteByte [47] x = [37, hexDigit (x / 16), hexDigit (x % 16)] ∧
        quoteByte [47] x ≠ [x]) ∧
      (128 ≤ x → quoteByte [47] x ≠ [x]) := by decide
  exact ⟨(key b hb).1, (key b hb).2, by decide, by decide,
    fun server path port => rfl⟩

/-- Witness for C9 (amended) at the space byte and a non-ASCII byte. -/
theorem C9_quoting_amended_witness :
    quoteByte [47] 32 = [37, 50, 48] ∧ quoteByte [47] 233 ≠ [233] :=
  ⟨(C9_quoting_amended 32 (by decide)).2.2.1,
   (C9_quoting_amended 233 (by decide)).2.1 (by decide)⟩

/-- C10: Application.detect treats an initialize response whose
profiles key is bound to null exactly like one lacking the key: both
raise the local unknown_error AerialException and start no stream,
while any non-null profiles value passes the contract check. -/
theorem C10_null_profiles_like_missing (offsetMinutes : Int) (mode : String)
    (fields : List (String × Json)) (v : Json) :
    (fields.lookup "profiles" = none →
      Application.detect offsetMinutes mode (Json.obj fields) =
        .raised initContractError) ∧
    (fields.lookup "profiles" = some Json.null →
      Application.detect offsetMinutes mode (Json.obj fields) =
        .raised initContractError) ∧
    (fields.lookup "profiles" = some v → v.isNull = false →
      Application.detect offsetMinutes mode (Json.obj fields) ≠
        .raised initContractError) := by
  refine ⟨?_, ?_, ?_⟩
  · intro h
    simp [Application.detect, Json.getD, h, Json.isNull]
  · intro h
    simp [Application.detect, Json.getD, h, Json.isNull]
  · intro h hv
    have hget : (Json.obj fields).getD "profiles" = v := by
      simp [Json.getD, h]
    unfold Application.detect
    rw [hget, hv]
    split
    · simp_all
    · split
      · split
        · split <;> simp
        · simp
      · simp

/-- Witness for C10 at a null-valued profiles entry, a missing one,
and an array-valued one. -/
theorem C10_null_profiles_like_missing_witness :
    Application.detect 0 "home" (Json.obj [("profiles", Json.null)]) =
      DetectOutcome.raised initContractError ∧
    Application.detect 0 "home" (Json.obj []) =
      DetectOutcome.raised initContractError ∧
    Application.detect 0 "home" (Json.obj [("profiles", Json.arr [])]) ≠
      DetectOutcome.raised initContractError :=
  ⟨(C10_null_profiles_like_missing 0 "home" [("profiles", Json.null)] Json.null).2.1 rfl,
   (C10_null_profiles_like_missing 0 "home" [] Json.null).1 rfl,
   (C10_null_profiles_like_missing 0 "home" [("profiles", Json.arr [])]
      (Json.arr [])).2.2 rfl rfl⟩
